import Mathlib

/-!
Verification development for the RoamIQ backend (crowd/foot-traffic
recommendation service).

The Python sources under `backend/services` and `backend/routers` are
shallowly embedded here:

* machine numbers are modelled as `ℤ`/`ℚ` (Python 3 ints are unbounded;
  float arithmetic in the code only ever combines small decimal constants,
  and no claim below is sensitive to float representation — the properties
  proved are monotonicity, clamping, precedence and permutation facts that
  hold under exact rational arithmetic just as under IEEE doubles);
* Python `round` (banker's rounding, half to even) is `pyRound`;
* dynamically-shaped JSON dicts become structures with `Option` fields;
  a JSON value that is tested with `isinstance(val, (int, float))` in the
  source is modelled by `JNum` (a number or some other JSON value);
* `async` calls to the external BestTime service are modelled by oracles:
  a transport-level outcome `Except Unit payload` per call, with `.error`
  standing for any raised exception (timeout, non-2xx, bad JSON);
* Python truthiness on strings (`if not s`, `s or t`) is modelled by
  explicit emptiness tests.
-/

/-- Python truthiness of an optional string: `None` and `""` are falsy. -/
def pyTruthyS (o : Option String) : Bool :=
  match o with
  | some s => s ≠ ""
  | none => false

/-- Python `a or b` for optional strings: keep `a` when truthy, else `b`. -/
def pyOrS (a b : Option String) : Option String :=
  if pyTruthyS a then a else b

/-- Python 3 `round(q)`: round half to even (banker's rounding). -/
def pyRound (q : ℚ) : ℤ :=
  if q - ⌊q⌋ < 1/2 then ⌊q⌋
  else if 1/2 < q - ⌊q⌋ then ⌊q⌋ + 1
  else if 2 ∣ ⌊q⌋ then ⌊q⌋ else ⌊q⌋ + 1

/-- Python `round(q, 1)`: round to one decimal place, half to even. -/
def pyRound1 (q : ℚ) : ℚ :=
  (pyRound (q * 10) : ℚ) / 10

/-- Python `round(q, 2)`: round to two decimal places, half to even. -/
def pyRound2 (q : ℚ) : ℚ :=
  (pyRound (q * 100) : ℚ) / 100

theorem pyRound_floor_le (q : ℚ) : ⌊q⌋ ≤ pyRound q := by
  unfold pyRound
  split_ifs <;> omega

theorem pyRound_le_floor_add_one (q : ℚ) : pyRound q ≤ ⌊q⌋ + 1 := by
  unfold pyRound
  split_ifs <;> omega

theorem pyRound_mono : ∀ {q r : ℚ}, q ≤ r → pyRound q ≤ pyRound r := by
  intro q r h
  rcases lt_or_eq_of_le (Int.floor_le_floor h) with hf | hf
  · calc pyRound q ≤ ⌊q⌋ + 1 := pyRound_le_floor_add_one q
      _ ≤ ⌊r⌋ := by omega
      _ ≤ pyRound r := pyRound_floor_le r
  · have hfrac : q - (⌊q⌋ : ℚ) ≤ r - (⌊r⌋ : ℚ) := by
      rw [hf]
      linarith
    unfold pyRound
    rw [hf] at hfrac ⊢
    split_ifs <;> first | omega | linarith

/-! ## BestTime client: the asynchronous venue-search poll loop

Source: `backend/services/besttime.py`, `BestTimeClient.venue_search`.

A progress payload is the dict shape the code reads from
`resp.json()`: `job_id`, `collection_id` (for the job-start response),
the `job_finished` flag (`.get("job_finished", False)`) and the venue
lists that `extract_venues_from_progress` later probes.  A poll outcome
is `none` when the GET / `raise_for_status` / JSON parse raised (the
`except` branch: logged and swallowed) and `some p` when the poll
produced a payload `p`. -/

/-- A JSON value that the source checks with `isinstance(val, (int, float))`:
either a number or some other (non-numeric) JSON value. -/
inductive JNum where
  | num (q : ℚ)
  | other
deriving DecidableEq, Repr

/-- The `analysis` sub-dict of a foot-traffic forecast
(`venue_foot_traffic_forecast` / `forecast`): `day_raw` is a flat hourly
array for one day, `week_raw` a list of rows, each row either a list of
hour values or some non-list JSON value (the source skips non-list rows
with `isinstance(day, list)`). -/
structure ForecastAnalysis where
  day_raw : List JNum := []
  week_raw : List (Option (List JNum)) := []
deriving DecidableEq, Repr

/-- A forecast wrapper dict holding an `analysis` sub-dict. -/
structure Forecast where
  analysis : ForecastAnalysis := {}
deriving DecidableEq, Repr

/-- A venue record as probed by `extract_busyness_from_venue` and the
routers (`backend/routers/crowd.py`). -/
structure Venue where
  venue_id : Option String := none
  venue_name : Option String := none
  venue_address : Option String := none
  venue_type : Option String := none
  venue_foot_traffic_forecast : Option Forecast := none
  forecast : Option Forecast := none
  venue_forecasted_busyness : Option JNum := none
  busyness : Option JNum := none
  busy_pct : Option JNum := none
deriving DecidableEq, Repr

/-- A dict-shaped response of the venue-search / progress endpoints. -/
structure Payload where
  job_id : Option String := none
  collection_id : Option String := none
  job_finished : Bool := false
  venues : List Venue := []
  venues_forecasts : List Venue := []
  venue_info : List Venue := []
deriving DecidableEq, Repr

/-- Maximum number of progress polls (`max_polls = 15` in the source). -/
def max_polls : Nat := 15

/-- The poll loop of `venue_search` (lines 70–103 of `besttime.py`).
`last` is the state of the local variable `progress_data`: `none` while
it has never been assigned (the `'progress_data' in dir()` guard), and
`some p` after a poll has parsed payload `p`.  A failed poll (`none`
outcome) leaves it unchanged; a successful poll stores its payload and
returns it at once when its `job_finished` flag is true.  When all polls
are spent the function returns `progress_data` if ever assigned, else
the job-start payload. -/
def pollLoop (start : Payload) : List (Option Payload) → Option Payload → Payload
  | [], last =>
    match last with
    | some p => p
    | none => start
  | o :: rest, last =>
    match o with
    | none => pollLoop start rest last
    | some p => if p.job_finished then p else pollLoop start rest (some p)

/-- `BestTimeClient.venue_search` after a successful job-start request:
if the start response lacks a truthy `job_id` or `collection_id` it is
returned unchanged; otherwise at most `max_polls` poll outcomes are
consumed by the poll loop. -/
def venue_search_from_start (start : Payload) (polls : List (Option Payload)) : Payload :=
  if ¬ (pyTruthyS start.job_id ∧ pyTruthyS start.collection_id) then start
  else pollLoop start (polls.take max_polls) none

/-- Specification helper: the payload of the first successful poll whose
finished flag is set, skipping failed polls and unfinished payloads. -/
def firstFinished : List (Option Payload) → Option Payload
  | [] => none
  | none :: rest => firstFinished rest
  | some p :: rest => if p.job_finished then some p else firstFinished rest

/-- Specification helper: the payload of the last successful poll. -/
def lastSome : List (Option Payload) → Option Payload
  | [] => none
  | o :: rest =>
    match lastSome rest with
    | some p => some p
    | none => o

theorem pollLoop_eq_spec (start : Payload) :
    ∀ (ps : List (Option Payload)) (last : Option Payload),
      pollLoop start ps last =
        match firstFinished ps with
        | some p => p
        | none =>
          match lastSome ps with
          | some p => p
          | none => last.getD start := by
  intro ps
  induction ps with
  | nil =>
    intro last
    cases last <;> simp [pollLoop, firstFinished, lastSome, Option.getD]
  | cons o rest ih =>
    intro last
    cases o with
    | none =>
      simp only [pollLoop, firstFinished, lastSome]
      rw [ih last]
      cases hf : firstFinished rest <;> cases hl : lastSome rest <;> simp
    | some p =>
      by_cases hp : p.job_finished
      · simp [pollLoop, firstFinished, hp]
      · simp only [pollLoop, firstFinished, lastSome, hp, if_false]
        rw [ih (some p)]
        cases hf : firstFinished rest <;> cases hl : lastSome rest <;> simp [Option.getD]

/-- C1: for every venue search whose job-start response carries truthy
`job_id` and `collection_id`, the poll loop inspects at most `max_polls`
(= 15) poll outcomes; it returns the payload of the first successful
poll reporting `job_finished = true`; failed polls are skipped (the
exception is swallowed and polling continues); and if no poll within the
bound reports the finished flag, the result is the payload of the last
successful poll, or the job-start payload when every poll failed — the
loop always returns a payload and never raises. -/
theorem venue_search_poll_behavior (start : Payload) (polls : List (Option Payload))
    (hj : pyTruthyS start.job_id = true) (hc : pyTruthyS start.collection_id = true) :
    venue_search_from_start start polls =
      match firstFinished (polls.take max_polls) with
      | some p => p
      | none =>
        match lastSome (polls.take max_polls) with
        | some p => p
        | none => start := by
  unfold venue_search_from_start
  rw [if_neg (by simp [hj, hc])]
  rw [pollLoop_eq_spec]
  cases firstFinished (polls.take max_polls) <;>
    cases lastSome (polls.take max_polls) <;> simp [Option.getD]

/-- Concrete payloads exercising the poll-loop theorem. -/
def c1Start : Payload := { job_id := some "job1", collection_id := some "coll1" }

/-- An unfinished progress payload. -/
def c1Partial : Payload := { job_finished := false, venues := [{ venue_name := some "A" }] }

/-- A finished progress payload. -/
def c1Done : Payload := { job_finished := true, venues := [{ venue_name := some "A" }, { venue_name := some "B" }] }

/-- Witness for C1: a failed first poll is swallowed, an unfinished
second poll is recorded, and the third poll finishes the job and is
returned immediately. -/
theorem venue_search_poll_behavior_witness :
    venue_search_from_start c1Start [none, some c1Partial, some c1Done, none] = c1Done := by
  have h := venue_search_poll_behavior c1Start [none, some c1Partial, some c1Done, none]
    (by decide) (by decide)
  exact h.trans (by decide)

/-! ## Crowd predictor

Source: `backend/services/crowd_predictor.py` — a pure, deterministic
fallback model: keyword classification, hourly curves, day-of-week
multipliers. -/

/-- Prefix test on character lists (used to model Python's substring
operator `in`). -/
def charsStartsWith : List Char → List Char → Bool
  | [], _ => true
  | _ :: _, [] => false
  | a :: as, b :: bs => a = b && charsStartsWith as bs

/-- Substring test on character lists. -/
def charsHas (pat : List Char) : List Char → Bool
  | [] => pat.isEmpty
  | c :: rest => charsStartsWith pat (c :: rest) || charsHas pat rest

/-- Python `pat in text` for strings. -/
def strIn (pat text : String) : Bool :=
  charsHas pat.toList text.toList

/-- Python `s.lower()` (every keyword in the source is ASCII, so
per-character lowering is faithful). -/
def strLower (s : String) : String :=
  ⟨s.data.map Char.toLower⟩

/-- Python `d.get(k, dflt)` for a dict modelled as an association list. -/
def dictGet {α : Type} (d : List (String × α)) (k : String) (dflt : α) : α :=
  ((d.find? (fun p => p.1 = k)).map (fun p => p.2)).getD dflt

/-- `_VENUE_PATTERNS`: ordered (type, keyword list) pairs. -/
def _VENUE_PATTERNS : List (String × List String) := [
  ("beach",       ["beach", "shore", "coast", "seaside", "marina"]),
  ("temple",      ["temple", "mandir", "kovil", "church", "mosque", "shrine", "cathedral", "basilica"]),
  ("restaurant",  ["restaurant", "cafe", "dine", "dining", "food", "eat", "breakfast", "lunch", "dinner", "biryani", "dosa", "tiffin", "mess", "hotel"]),
  ("station",     ["railway", "station", "junction", "bus stand", "airport", "terminal", "departure", "arrival"]),
  ("hotel",       ["hotel", "resort", "check-in", "check-out", "accommodation", "stay", "lodge", "inn"]),
  ("monument",    ["fort", "palace", "monument", "memorial", "museum", "gallery", "tomb", "mausoleum"]),
  ("park",        ["park", "garden", "botanical", "zoo", "wildlife", "sanctuary", "reserve"]),
  ("market",      ["market", "bazaar", "shopping", "mall", "shop", "souvenir", "store"]),
  ("viewpoint",   ["viewpoint", "view point", "sunset", "sunrise", "scenic", "lookout", "tip", "cape", "point"]),
  ("waterfall",   ["waterfall", "falls", "dam", "lake", "river", "backwater"]),
  ("attraction",  ["attraction", "tour", "sightseeing", "explore", "visit"])]

/-- `_HOURLY_CURVES`: 24-entry base busyness curves per venue type. -/
def _HOURLY_CURVES : List (String × List ℤ) := [
  ("beach",
    [5, 3, 2, 2, 3, 10, 25, 35, 40, 35, 30, 25,
     20, 25, 30, 40, 55, 75, 85, 60, 35, 20, 10, 5]),
  ("temple",
    [5, 3, 2, 2, 5, 30, 65, 70, 55, 40, 30, 25,
     20, 15, 15, 20, 35, 60, 70, 55, 35, 20, 10, 5]),
  ("restaurant",
    [3, 2, 2, 2, 2, 5, 15, 45, 65, 50, 30, 25,
     50, 70, 55, 30, 20, 25, 45, 70, 75, 60, 35, 15]),
  ("station",
    [20, 15, 10, 10, 15, 30, 55, 70, 75, 60, 45, 40,
     40, 45, 50, 55, 65, 75, 80, 70, 55, 45, 35, 25]),
  ("hotel",
    [10, 5, 3, 3, 5, 10, 20, 35, 50, 55, 60, 55,
     50, 50, 55, 55, 50, 45, 40, 35, 30, 25, 20, 15]),
  ("monument",
    [3, 2, 2, 2, 3, 5, 10, 20, 35, 50, 65, 70,
     55, 45, 50, 55, 60, 55, 40, 25, 15, 10, 5, 3]),
  ("park",
    [3, 2, 2, 2, 5, 15, 35, 50, 55, 50, 45, 40,
     35, 30, 35, 45, 55, 65, 60, 40, 25, 15, 8, 5]),
  ("market",
    [2, 2, 2, 2, 3, 5, 10, 20, 35, 50, 65, 70,
     60, 55, 55, 60, 70, 75, 70, 55, 40, 25, 15, 5]),
  ("viewpoint",
    [10, 5, 3, 3, 5, 30, 55, 45, 35, 30, 25, 25,
     25, 25, 30, 40, 55, 75, 85, 60, 30, 15, 10, 8]),
  ("waterfall",
    [3, 2, 2, 2, 3, 5, 15, 25, 40, 55, 65, 70,
     60, 50, 50, 55, 55, 45, 30, 20, 10, 5, 3, 3]),
  ("attraction",
    [3, 2, 2, 2, 3, 5, 15, 25, 40, 55, 65, 70,
     60, 55, 55, 60, 60, 55, 40, 30, 20, 10, 5, 3])]

/-- `_DEFAULT_CURVE` for unclassified venues. -/
def _DEFAULT_CURVE : List ℤ :=
  [5, 3, 3, 3, 5, 10, 20, 35, 45, 55, 60, 65,
   55, 50, 50, 55, 60, 60, 50, 40, 30, 20, 10, 5]

/-- `_DAY_MULTIPLIERS` (Mon=0 .. Sun=6). -/
def _DAY_MULTIPLIERS : List ℚ := [0.80, 0.80, 0.85, 0.90, 0.95, 1.15, 1.20]

/-- `classify_venue(title, location)`: first pattern whose keyword occurs
in the lowercased `f"{title} {location or ''}"`, else `"attraction"`. -/
def classify_venue (title : String) (location : Option String) : String :=
  let text := strLower (title ++ " " ++ location.getD "")
  match _VENUE_PATTERNS.find? (fun p => p.2.any (fun kw => strIn kw text)) with
  | some p => p.1
  | none => "attraction"

/-- Lines 110–115 of `crowd_predictor.py`: base busyness from the time
curve — `curve[hour]` when the hour is given and in `[0, 23]`, else the
rounded mean of the 24 curve entries. -/
def predict_base_hour (curve : List ℤ) (hour : Option ℤ) : ℤ :=
  match hour with
  | some h =>
    if 0 ≤ h ∧ h ≤ 23 then curve.getD h.toNat 0
    else pyRound ((curve.sum : ℚ) / curve.length)
  | none => pyRound ((curve.sum : ℚ) / curve.length)

/-- Lines 117–119: the day-of-week multiplier, applied and re-rounded
when the day is given and in `[0, 6]`. -/
def apply_day_mult (base : ℤ) (day_of_week : Option ℤ) : ℤ :=
  match day_of_week with
  | some d =>
    if 0 ≤ d ∧ d ≤ 6 then pyRound ((base : ℚ) * _DAY_MULTIPLIERS.getD d.toNat 0)
    else base
  | none => base

/-- Line 122: `max(0, min(100, base))`. -/
def clampPct (b : ℤ) : ℤ :=
  max 0 (min 100 b)

/-- Lines 124–154: the tiered tip with the venue-specific addendum. -/
def predict_tip (venue_type : String) (busyness : ℤ) (hour : Option ℤ) : String :=
  let tip :=
    if busyness > 80 then "🔴 Predicted very crowded! Consider visiting at a quieter hour."
    else if busyness > 60 then "🟡 Expected to be moderately busy. Plan extra time."
    else if busyness > 30 then "🟢 Predicted reasonable crowd levels for this time."
    else "✅ Predicted to be quiet — great time to visit!"
  match hour with
  | some h =>
    if venue_type = "beach" then
      if 16 ≤ h ∧ h ≤ 19 then tip ++ " 🌅 Popular sunset hours at the beach."
      else if 5 ≤ h ∧ h ≤ 7 then tip ++ " 🌅 Great time for a peaceful sunrise walk."
      else tip
    else if venue_type = "temple" then
      if 5 ≤ h ∧ h ≤ 8 then tip ++ " 🛕 Morning prayers tend to draw crowds."
      else if 17 ≤ h ∧ h ≤ 19 then tip ++ " 🛕 Evening aarti/prayer rush expected."
      else tip
    else if venue_type = "restaurant" then
      if h = 7 ∨ h = 8 ∨ h = 9 then tip ++ " 🍳 Peak breakfast hours."
      else if h = 12 ∨ h = 13 ∨ h = 14 then tip ++ " 🍽️ Lunch rush expected."
      else if h = 19 ∨ h = 20 ∨ h = 21 then tip ++ " 🍽️ Dinner rush expected."
      else tip
    else if venue_type = "viewpoint" then
      if 16 ≤ h ∧ h ≤ 19 then tip ++ " 📸 Sunset viewing — arrive early for best spots."
      else tip
    else tip
  | none => tip

/-- `predict_busyness(title, location, hour, day_of_week)` from
`crowd_predictor.py`: returns `(busyness_pct, optimization_tip,
venue_type)`. -/
def predict_busyness (title : String) (location : Option String)
    (hour : Option ℤ) (day_of_week : Option ℤ) : ℤ × String × String :=
  let venue_type := classify_venue title location
  let curve := dictGet _HOURLY_CURVES venue_type _DEFAULT_CURVE
  let busyness := clampPct (apply_day_mult (predict_base_hour curve hour) day_of_week)
  (busyness, predict_tip venue_type busyness hour, venue_type)

theorem clampPct_nonneg (b : ℤ) : 0 ≤ clampPct b :=
  le_max_left 0 _

theorem clampPct_le_100 (b : ℤ) : clampPct b ≤ 100 :=
  max_le (by norm_num) (min_le_left 100 b)

theorem clampPct_mono {a b : ℤ} (h : a ≤ b) : clampPct a ≤ clampPct b :=
  max_le_max le_rfl (min_le_min le_rfl h)

/-- C4: for all inputs, the busyness component of `predict_busyness` is
an integer in `[0, 100]`, and the function is pure and deterministic:
two calls with identical arguments return the identical
`(busyness, tip, venue_type)` triple. -/
theorem predict_busyness_range_deterministic (title : String) (location : Option String)
    (hour day_of_week : Option ℤ) :
    0 ≤ (predict_busyness title location hour day_of_week).1 ∧
    (predict_busyness title location hour day_of_week).1 ≤ 100 ∧
    predict_busyness title location hour day_of_week =
      predict_busyness title location hour day_of_week :=
  ⟨clampPct_nonneg _, clampPct_le_100 _, rfl⟩

/-- C6: at any hour `H` in range where the classified venue type's curve
is positive, the predicted busyness for Sunday (`day_of_week = 6`,
multiplier 1.20) is at least the predicted busyness for Monday
(`day_of_week = 0`, multiplier 0.80); rounding and the clamp at 100
preserve the comparison. -/
theorem predict_busyness_weekend_ge (title : String) (location : Option String) (H : ℤ)
    (hH0 : 0 ≤ H) (hH23 : H ≤ 23)
    (hpos : 0 < (dictGet _HOURLY_CURVES (classify_venue title location) _DEFAULT_CURVE).getD H.toNat 0) :
    (predict_busyness title location (some H) (some 0)).1 ≤
      (predict_busyness title location (some H) (some 6)).1 := by
  show clampPct _ ≤ clampPct _
  apply clampPct_mono
  show apply_day_mult (predict_base_hour _ (some H)) (some 0) ≤
    apply_day_mult (predict_base_hour _ (some H)) (some 6)
  have hbase : predict_base_hour
      (dictGet _HOURLY_CURVES (classify_venue title location) _DEFAULT_CURVE) (some H) =
      (dictGet _HOURLY_CURVES (classify_venue title location) _DEFAULT_CURVE).getD H.toNat 0 := by
    simp only [predict_base_hour]
    rw [if_pos ⟨hH0, hH23⟩]
  rw [hbase]
  simp only [apply_day_mult]
  rw [if_pos (by norm_num), if_pos (by norm_num)]
  apply pyRound_mono
  have h0 : (_DAY_MULTIPLIERS.getD (0 : ℤ).toNat 0) = (4 : ℚ) / 5 := by
    have ht : ((0 : ℤ).toNat) = 0 := rfl
    rw [ht]
    norm_num [_DAY_MULTIPLIERS, List.getD_cons_succ, List.getD_cons_zero]
  have h6 : (_DAY_MULTIPLIERS.getD (6 : ℤ).toNat 0) = (6 : ℚ) / 5 := by
    have ht : ((6 : ℤ).toNat) = 6 := rfl
    rw [ht]
    norm_num [_DAY_MULTIPLIERS, List.getD_cons_succ, List.getD_cons_zero]
  rw [h0, h6]
  have hb : (0 : ℚ) ≤ ((dictGet _HOURLY_CURVES (classify_venue title location) _DEFAULT_CURVE).getD H.toNat 0 : ℤ) := by
    exact_mod_cast le_of_lt hpos
  nlinarith

/-- Witness for C6 at `title = "Juhu Beach"`, hour 18: the beach curve
value 85 is positive and the Sunday prediction dominates the Monday
one. -/
theorem predict_busyness_weekend_ge_witness :
    0 < (dictGet _HOURLY_CURVES (classify_venue "Juhu Beach" none) _DEFAULT_CURVE).getD (18 : ℤ).toNat 0 ∧
    (predict_busyness "Juhu Beach" none (some 18) (some 0)).1 ≤
      (predict_busyness "Juhu Beach" none (some 18) (some 6)).1 :=
  ⟨by decide, predict_busyness_weekend_ge "Juhu Beach" none 18 (by decide) (by decide) (by decide)⟩

/-! ## Busyness extraction

Source: `backend/routers/crowd.py`, `extract_busyness_from_venue`
(lines 77–107).  The Python function is a sequence of three
early-return blocks; each block is translated as one definition and the
function as the fall-through chain over them. -/

/-- `ft = venue.get("venue_foot_traffic_forecast") or venue.get("forecast")
or {}` followed by `analysis = ft.get("analysis", {})` (an absent or
empty forecast dict is modelled as `none`). -/
def busynessAnalysis (venue : Venue) : ForecastAnalysis :=
  ((venue.venue_foot_traffic_forecast.orElse (fun _ => venue.forecast)).map
    Forecast.analysis).getD {}

/-- The per-cell filter of the week scan: keep a value iff it is numeric
and strictly positive (`isinstance(h, (int, float)) and h > 0`). -/
def posNum (c : JNum) : Option ℚ :=
  match c with
  | JNum.num q => if 0 < q then some q else none
  | JNum.other => none

/-- Lines 94–97: build `all_hours` by extending an accumulator with the
positive numeric entries of every list-shaped row of `week_raw`. -/
def positiveWeekHours (week_raw : List (Option (List JNum))) : List ℚ :=
  week_raw.foldl
    (fun acc day =>
      match day with
      | some dd => acc ++ dd.filterMap posNum
      | none => acc) []

/-- First early-return block (lines 84–89): when `day_of_week` is
present (its value is never used) and `hour` is given and in range of
`day_raw`, return the cell at index `hour` if it is numeric and `≥ 0`. -/
def busyness_strategy_day_cell (venue : Venue) (day_of_week hour : Option ℤ) : Option ℚ :=
  match day_of_week, hour with
  | some _, some h =>
    if (busynessAnalysis venue).day_raw.length ≠ 0 ∧
        0 ≤ h ∧ h < ((busynessAnalysis venue).day_raw.length : ℤ) then
      match (busynessAnalysis venue).day_raw.getD h.toNat JNum.other with
      | JNum.num val => if 0 ≤ val then some val else none
      | JNum.other => none
    else none
  | _, _ => none

/-- Second early-return block (lines 92–99): the mean of all strictly
positive numeric week-matrix entries, rounded to one decimal. -/
def busyness_strategy_week_mean (venue : Venue) : Option ℚ :=
  if (busynessAnalysis venue).week_raw.length ≠ 0 then
    if (positiveWeekHours (busynessAnalysis venue).week_raw).length ≠ 0 then
      some (pyRound1 ((positiveWeekHours (busynessAnalysis venue).week_raw).sum /
        ((positiveWeekHours (busynessAnalysis venue).week_raw).length : ℚ)))
    else none
  else none

/-- Third early-return block (lines 102–105): the first numeric value
among `venue_forecasted_busyness`, `busyness`, `busy_pct`. -/
def busyness_strategy_direct (venue : Venue) : Option ℚ :=
  match venue.venue_forecasted_busyness with
  | some (JNum.num val) => some val
  | _ =>
    match venue.busyness with
    | some (JNum.num val) => some val
    | _ =>
      match venue.busy_pct with
      | some (JNum.num val) => some val
      | _ => none

/-- `extract_busyness_from_venue(venue, day_of_week, hour)`: the three
early-return blocks in source order; `None` when they all fall
through. -/
def extract_busyness_from_venue (venue : Venue) (day_of_week hour : Option ℤ) : Option ℚ :=
  match busyness_strategy_day_cell venue day_of_week hour with
  | some val => some val
  | none =>
    match busyness_strategy_week_mean venue with
    | some val => some val
    | none => busyness_strategy_direct venue

/-! Independent formulations of the three strategies, written from the
(amended) claim's wording rather than from the code, to compare against
the translation above. -/

/-- Claim strategy (1), amended wording: the `hour` cell of the
single-day `day_raw` array, attempted whenever `day_of_week` is present
(value unused) and a non-negative `hour` indexes into the array;
succeeds only on a numeric cell `≥ 0`. -/
def spec_day_cell (venue : Venue) (day_of_week hour : Option ℤ) : Option ℚ :=
  match day_of_week, hour with
  | some _, some h =>
    if 0 ≤ h then
      match (busynessAnalysis venue).day_raw.get? h.toNat with
      | some (JNum.num val) => if 0 ≤ val then some val else none
      | _ => none
    else none
  | _, _ => none

/-- The flattened list of strictly positive numeric entries across the
list-shaped rows of the week matrix. -/
def specWeekVals (venue : Venue) : List ℚ :=
  (((busynessAnalysis venue).week_raw.filterMap id).map
    (fun row => row.filterMap posNum)).flatten

/-- Claim strategy (2): the arithmetic mean of all strictly positive
values across the week matrix, rounded to one decimal. -/
def spec_week_mean (venue : Venue) : Option ℚ :=
  if (busynessAnalysis venue).week_raw ≠ [] ∧ specWeekVals venue ≠ [] then
    some (pyRound1 ((specWeekVals venue).sum / ((specWeekVals venue).length : ℚ)))
  else none

/-- Claim strategy (3): the first numeric value among the three
alternate direct busyness fields. -/
def spec_direct (venue : Venue) : Option ℚ :=
  ([venue.venue_forecasted_busyness, venue.busyness, venue.busy_pct].filterMap
    (fun o =>
      match o with
      | some (JNum.num q) => some q
      | _ => none)).head?

/-- The three claim strategies in order, with "no data" only when all
three fail. -/
def extract_busyness_spec (venue : Venue) (day_of_week hour : Option ℤ) : Option ℚ :=
  (spec_day_cell venue day_of_week hour).orElse (fun _ =>
    (spec_week_mean venue).orElse (fun _ => spec_direct venue))

theorem day_cell_eq_spec (venue : Venue) (d h : Option ℤ) :
    busyness_strategy_day_cell venue d h = spec_day_cell venue d h := by
  unfold busyness_strategy_day_cell spec_day_cell
  cases d with
  | none => cases h <;> rfl
  | some dd =>
    cases h with
    | none => rfl
    | some hh =>
      dsimp only
      by_cases h0 : 0 ≤ hh
      · by_cases hlt : hh < ((busynessAnalysis venue).day_raw.length : ℤ)
        · rw [if_pos ⟨by omega, h0, hlt⟩, if_pos h0]
          have htn : hh.toNat < (busynessAnalysis venue).day_raw.length := by omega
          rw [List.getD]
          cases hcell : (busynessAnalysis venue).day_raw.get? hh.toNat with
          | none =>
            have hlen := List.get?_eq_none.mp hcell
            omega
          | some c => cases c <;> rfl
        · rw [if_neg (fun hx => hlt hx.2.2), if_pos h0]
          have hnone : (busynessAnalysis venue).day_raw.get? hh.toNat = none :=
            List.get?_eq_none.mpr (by omega)
          rw [hnone]
      · rw [if_neg (fun hx => h0 hx.2.1), if_neg h0]

theorem foldl_extend_eq_join (g : List JNum → List ℚ) :
    ∀ (l : List (Option (List JNum))) (init : List ℚ),
      l.foldl (fun acc day => match day with | some dd => acc ++ g dd | none => acc) init
        = init ++ ((l.filterMap id).map g).flatten := by
  intro l
  induction l with
  | nil => intro init; simp
  | cons o rest ih =>
    intro init
    cases o with
    | none =>
      show List.foldl _ init rest = _
      rw [ih]
      simp
    | some dd =>
      show List.foldl _ (init ++ g dd) rest = _
      rw [ih]
      simp [List.append_assoc]

theorem positiveWeekHours_eq_specWeekVals (venue : Venue) :
    positiveWeekHours (busynessAnalysis venue).week_raw = specWeekVals venue := by
  unfold positiveWeekHours specWeekVals
  rw [foldl_extend_eq_join]
  simp

theorem week_mean_eq_spec (venue : Venue) :
    busyness_strategy_week_mean venue = spec_week_mean venue := by
  unfold busyness_strategy_week_mean spec_week_mean
  rw [positiveWeekHours_eq_specWeekVals]
  by_cases hw : (busynessAnalysis venue).week_raw = []
  · rw [if_neg (by simp [hw]), if_neg (by simp [hw])]
  · by_cases hv : specWeekVals venue = []
    · rw [if_pos (by simpa [ne_eq, List.length_eq_zero] using hw),
        if_neg (by simp [hv]), if_neg (fun hx => hx.2 hv)]
    · rw [if_pos (by simpa [ne_eq, List.length_eq_zero] using hw),
        if_pos (by simpa [ne_eq, List.length_eq_zero] using hv),
        if_pos ⟨hw, hv⟩]

theorem direct_eq_spec (venue : Venue) :
    busyness_strategy_direct venue = spec_direct venue := by
  unfold busyness_strategy_direct spec_direct
  rcases venue.venue_forecasted_busyness with _ | (q1 | _) <;>
    rcases venue.busyness with _ | (q2 | _) <;>
      rcases venue.busy_pct with _ | (q3 | _) <;> rfl

/-- C2 (amended): the shared busyness-extraction helper tries exactly
three strategies in order — (1) the `hour` cell of the single-day
`day_raw` array, attempted whenever `day_of_week` is present (its value
is neither used nor range-checked) and `hour` is given, non-negative
and within the array, succeeding only on a numeric cell `≥ 0`; (2) the
one-decimal-rounded mean of all strictly positive numeric values across
the week matrix; (3) the first numeric value among
`venue_forecasted_busyness`, `busyness`, `busy_pct` — and returns
"no data" (`none`) exactly when all three strategies fail. -/
theorem extract_busyness_three_strategies (venue : Venue) (d h : Option ℤ) :
    extract_busyness_from_venue venue d h = extract_busyness_spec venue d h ∧
    (extract_busyness_from_venue venue d h = none ↔
      busyness_strategy_day_cell venue d h = none ∧
      busyness_strategy_week_mean venue = none ∧
      busyness_strategy_direct venue = none) := by
  constructor
  · unfold extract_busyness_from_venue extract_busyness_spec
    rw [day_cell_eq_spec, week_mean_eq_spec, direct_eq_spec]
    cases spec_day_cell venue d h <;> cases spec_week_mean venue <;> rfl
  · unfold extract_busyness_from_venue
    cases busyness_strategy_day_cell venue d h <;>
      cases busyness_strategy_week_mean venue <;>
        cases hd : busyness_strategy_direct venue <;> simp

/-- C2 as literally stated (before amendment): strategy (1) reads the
specific day+hour cell of the 7×24 `week_raw` forecast matrix when both
`day_of_week` and `hour` are given and in range (day in `[0,6]`, hour
in `[0,23]`); strategies (2) and (3) as in the code. -/
def extract_busyness_claimed (venue : Venue) (day_of_week hour : Option ℤ) : Option ℚ :=
  let s1 : Option ℚ :=
    match day_of_week, hour with
    | some d, some h =>
      if 0 ≤ d ∧ d ≤ 6 ∧ 0 ≤ h ∧ h ≤ 23 then
        match (busynessAnalysis venue).week_raw.getD d.toNat none with
        | some row =>
          match row.getD h.toNat JNum.other with
          | JNum.num val => if 0 ≤ val then some val else none
          | JNum.other => none
        | none => none
      else none
    | _, _ => none
  s1.orElse (fun _ =>
    (busyness_strategy_week_mean venue).orElse (fun _ => busyness_strategy_direct venue))

/-- A venue whose single-day `day_raw` array and 7×24 `week_raw` matrix
disagree: `day_raw[0] = 55` while row `d` of the matrix holds the
constant value `10·(d+1)`. -/
def c2Venue : Venue :=
  { venue_foot_traffic_forecast := some { analysis := {
      day_raw := [JNum.num 55],
      week_raw := [
        some (List.replicate 24 (JNum.num 10)),
        some (List.replicate 24 (JNum.num 20)),
        some (List.replicate 24 (JNum.num 30)),
        some (List.replicate 24 (JNum.num 40)),
        some (List.replicate 24 (JNum.num 50)),
        some (List.replicate 24 (JNum.num 60)),
        some (List.replicate 24 (JNum.num 70))] } } }

/-- Counterexample to C2 as stated: at `day_of_week = 1`, `hour = 0`
(both in range), the code returns the `day_raw` cell 55, not the 7×24
matrix cell `week_raw[1][0] = 20` that the claim's first strategy
denotes. -/
theorem extract_busyness_claim_counterexample :
    extract_busyness_from_venue c2Venue (some 1) (some 0) = some 55 ∧
    extract_busyness_claimed c2Venue (some 1) (some 0) = some 20 ∧
    (55 : ℚ) ≠ 20 := by
  refine ⟨?_, ?_, by norm_num⟩
  · norm_num [extract_busyness_from_venue, busyness_strategy_day_cell, busynessAnalysis,
      c2Venue, List.getD]
  · norm_num [extract_busyness_claimed, busynessAnalysis, c2Venue, List.getD,
      List.replicate, Option.orElse]

/-! ## Elderly scorer

Source: `backend/services/elderly_scorer.py`.  The sequential
`score -= penalty` mutations of `compute_walkability_score` are
translated as a sum of per-block penalty terms, each the verbatim tier
table of its block. -/

/-- Python truthiness of an optional int: `None` and `0` are falsy. -/
def pyTruthyI (o : Option ℤ) : Bool :=
  match o with
  | some n => n ≠ 0
  | none => false

/-- `LOW_EFFORT_TYPES`. -/
def LOW_EFFORT_TYPES : List String :=
  ["museum", "cafe", "restaurant", "theater", "cinema", "library",
   "gallery", "spa", "temple", "church", "cathedral", "mall",
   "shopping_mall", "bakery", "tea_house", "hotel"]

/-- `HIGH_EFFORT_TYPES`. -/
def HIGH_EFFORT_TYPES : List String :=
  ["hiking", "trek", "trail", "mountain", "waterfall", "adventure",
   "sports", "cycling", "surfing", "diving", "climbing", "waterpark",
   "amusement_park", "theme_park", "zoo"]

/-- `HIGH_EFFORT_KEYWORDS`. -/
def HIGH_EFFORT_KEYWORDS : List String :=
  ["hike", "trek", "climb", "stairs", "steep", "walk", "trail",
   "uphill", "adventure", "sport", "cycling", "surf"]

/-- `any(t in vtype for t in HIGH_EFFORT_TYPES)` over a lowercased type. -/
def isHighEffortType (vtype : String) : Bool :=
  HIGH_EFFORT_TYPES.any (fun t => strIn t vtype)

/-- `any(t in vtype for t in LOW_EFFORT_TYPES)` over a lowercased type. -/
def isLowEffortType (vtype : String) : Bool :=
  LOW_EFFORT_TYPES.any (fun t => strIn t vtype)

/-- `compute_crowd_score`: `100 - busyness` clamped to `[0, 100]`, or
the neutral 50.0 when busyness is unknown. -/
def compute_crowd_score (busyness_pct : Option ℚ) : ℚ :=
  match busyness_pct with
  | none => 50
  | some b => max 0 (min 100 (100 - b))

/-- `estimate_steps_from_duration`. -/
def estimate_steps_from_duration (duration_minutes : Option ℤ) (is_outdoor : Bool)
    (venue_type : Option String) : ℤ :=
  if ¬ pyTruthyI duration_minutes then 0
  else
    (duration_minutes.getD 0) *
      (if pyTruthyS venue_type then
        (if isHighEffortType (strLower (venue_type.getD "")) then 90
         else if isLowEffortType (strLower (venue_type.getD "")) then 20
         else if is_outdoor then 70
         else 30)
      else if is_outdoor then 70
      else 30)

/-- `estimate_distance_from_duration`: `(duration/60) × speed`, rounded
to 2 decimals. -/
def estimate_distance_from_duration (duration_minutes : Option ℤ) (is_outdoor : Bool)
    (venue_type : Option String) : ℚ :=
  if ¬ pyTruthyI duration_minutes then 0
  else
    pyRound2 (((duration_minutes.getD 0 : ℚ) / 60) *
      (if pyTruthyS venue_type then
        (if isHighEffortType (strLower (venue_type.getD "")) then 3.5
         else if isLowEffortType (strLower (venue_type.getD "")) then 0.5
         else if is_outdoor then 3.0
         else 1.5)
      else if is_outdoor then 3.0
      else 1.5))

/-- Distance tier of `compute_walkability_score` (lines 131–139). -/
def walk_distance_penalty (distance_km : Option ℚ) : ℚ :=
  match distance_km with
  | some dk =>
    if dk > 0 then
      (if dk > 5 then 35 else if dk > 3 then 25 else if dk > 2 then 15 else if dk > 1 then 8 else 0)
    else 0
  | none => 0

/-- Steps tier of `compute_walkability_score` (lines 142–149). -/
def walk_steps_penalty (estimated_steps : Option ℤ) : ℚ :=
  match estimated_steps with
  | some s =>
    if s > 0 then
      (if s > 8000 then 35 else if s > 5000 then 20 else if s > 3000 then 10 else if s > 1500 then 5 else 0)
    else 0
  | none => 0

/-- Duration tier of `compute_walkability_score` (lines 157–163). -/
def walk_duration_penalty (duration_minutes : Option ℤ) : ℚ :=
  if pyTruthyI duration_minutes then
    (if duration_minutes.getD 0 > 180 then 20
     else if duration_minutes.getD 0 > 120 then 12
     else if duration_minutes.getD 0 > 60 then 5
     else 0)
  else 0

/-- Venue-type adjustment of `compute_walkability_score` (lines 166–171):
−25 high-effort, +15 low-effort. -/
def walk_type_adjust (venue_type : Option String) : ℚ :=
  if pyTruthyS venue_type then
    (if isHighEffortType (strLower (venue_type.getD "")) then -25
     else if isLowEffortType (strLower (venue_type.getD "")) then 15
     else 0)
  else 0

/-- Description keyword scan of `compute_walkability_score`
(lines 174–177): −8 per high-effort keyword hit. -/
def walk_description_penalty (description : Option String) : ℚ :=
  if pyTruthyS description then
    8 * ((HIGH_EFFORT_KEYWORDS.countP
      (fun kw => strIn kw (strLower (description.getD "")))) : ℚ)
  else 0

/-- `max(0, min(100, score))` on a float score. -/
def clampQ (q : ℚ) : ℚ :=
  max 0 (min 100 q)

/-- `compute_walkability_score`: base 70, the five adjustment blocks in
source order, clamped to `[0, 100]`. -/
def compute_walkability_score (is_outdoor : Bool) (duration_minutes : Option ℤ)
    (venue_type : Option String) (description : Option String)
    (distance_km : Option ℚ) (estimated_steps : Option ℤ) : ℚ :=
  clampQ (70 - walk_distance_penalty distance_km - walk_steps_penalty estimated_steps
    - (if is_outdoor then 10 else 0) - walk_duration_penalty duration_minutes
    + walk_type_adjust venue_type - walk_description_penalty description)

/-- `compute_accessibility_score`: base 60, +20 indoor, +10 seating,
+10 exact low-effort set membership of the lowercased type, clamped. -/
def compute_accessibility_score (is_indoor : Bool) (venue_type : Option String)
    (has_seating : Bool) : ℚ :=
  clampQ (60 + (if is_indoor then 20 else 0) + (if has_seating then 10 else 0)
    + (if pyTruthyS venue_type && LOW_EFFORT_TYPES.contains (strLower (venue_type.getD ""))
       then 10 else 0))

theorem clampQ_mono {a b : ℚ} (h : a ≤ b) : clampQ a ≤ clampQ b :=
  max_le_max le_rfl (min_le_min le_rfl h)

theorem walk_steps_penalty_mono {s1 s2 : ℤ} (h : s1 ≤ s2) :
    walk_steps_penalty (some s1) ≤ walk_steps_penalty (some s2) := by
  unfold walk_steps_penalty
  dsimp only
  split_ifs <;> first | omega | norm_num

/-- C7: holding every other argument fixed, a larger `estimated_steps`
never yields a strictly larger walkability score: the step-penalty
tiers are monotone non-increasing and the `[0, 100]` clamp preserves
the comparison. -/
theorem walkability_steps_monotone (is_outdoor : Bool) (duration_minutes : Option ℤ)
    (venue_type description : Option String) (distance_km : Option ℚ)
    (s1 s2 : ℤ) (h : s1 ≤ s2) :
    compute_walkability_score is_outdoor duration_minutes venue_type description
      distance_km (some s2) ≤
    compute_walkability_score is_outdoor duration_minutes venue_type description
      distance_km (some s1) := by
  unfold compute_walkability_score
  apply clampQ_mono
  have hp := walk_steps_penalty_mono h
  linarith

/-- Witness for C7 at 1000 vs 9000 steps, all other inputs defaulted. -/
theorem walkability_steps_monotone_witness :
    (1000 : ℤ) ≤ 9000 ∧
    compute_walkability_score false none none none none (some 9000) ≤
      compute_walkability_score false none none none none (some 1000) :=
  ⟨by norm_num, walkability_steps_monotone false none none none none 1000 9000 (by norm_num)⟩

/-- C10: `compute_accessibility_score` is exactly
`60 + (20 if indoor) + (10 if seating) + (10 if the lowercased type is
in the low-effort set)`; the clamp never binds, so the result always
lies in `[60, 100]`. -/
theorem accessibility_score_closed_form (is_indoor : Bool) (venue_type : Option String)
    (has_seating : Bool) :
    compute_accessibility_score is_indoor venue_type has_seating =
      60 + (if is_indoor then 20 else 0) + (if has_seating then 10 else 0)
        + (if pyTruthyS venue_type && LOW_EFFORT_TYPES.contains (strLower (venue_type.getD ""))
           then 10 else 0) ∧
    60 ≤ compute_accessibility_score is_indoor venue_type has_seating ∧
    compute_accessibility_score is_indoor venue_type has_seating ≤ 100 := by
  unfold compute_accessibility_score clampQ
  split_ifs <;> norm_num

/-! ## Stable descending sort

`scored.sort(key=lambda v: v.overall_score, reverse=True)` in both
rankers: Python's sort is stable, and with `reverse=True` elements with
equal keys still keep their input order.  `sortDescBy` is the stable
descending insertion sort — extensionally the same function. -/

/-- Insert `v` (an element earlier in the input than everything in `l`)
before the first element whose key does not exceed `v`'s. -/
def insertDescBy {α : Type} (key : α → ℚ) (v : α) : List α → List α
  | [] => [v]
  | w :: ws => if key w ≤ key v then v :: w :: ws else w :: insertDescBy key v ws

/-- Stable sort, descending by `key`. -/
def sortDescBy {α : Type} (key : α → ℚ) : List α → List α
  | [] => []
  | x :: xs => insertDescBy key x (sortDescBy key xs)

theorem insertDescBy_perm {α : Type} (key : α → ℚ) (v : α) :
    ∀ l : List α, List.Perm (insertDescBy key v l) (v :: l) := by
  intro l
  induction l with
  | nil => exact List.Perm.refl [v]
  | cons w ws ih =>
    show List.Perm (if key w ≤ key v then v :: w :: ws else w :: insertDescBy key v ws) _
    by_cases hk : key w ≤ key v
    · rw [if_pos hk]
    · rw [if_neg hk]
      exact (ih.cons w).trans (List.Perm.swap v w ws)

theorem sortDescBy_perm {α : Type} (key : α → ℚ) :
    ∀ l : List α, List.Perm (sortDescBy key l) l := by
  intro l
  induction l with
  | nil => exact List.Perm.refl []
  | cons x xs ih => exact (insertDescBy_perm key x (sortDescBy key xs)).trans (ih.cons x)

theorem insertDescBy_pairwise {α : Type} (key : α → ℚ) (v : α) :
    ∀ l : List α, l.Pairwise (fun a b => key b ≤ key a) →
      (insertDescBy key v l).Pairwise (fun a b => key b ≤ key a) := by
  intro l
  induction l with
  | nil => intro _; exact List.pairwise_singleton _ v
  | cons w ws ih =>
    intro hp
    show List.Pairwise _ (if key w ≤ key v then v :: w :: ws else w :: insertDescBy key v ws)
    by_cases hk : key w ≤ key v
    · rw [if_pos hk]
      refine List.Pairwise.cons ?_ hp
      intro x hx
      rcases List.mem_cons.mp hx with hx | hx
      · exact hx ▸ hk
      · exact le_trans (List.rel_of_pairwise_cons hp hx) hk
    · rw [if_neg hk]
      refine List.Pairwise.cons ?_ (ih (List.pairwise_cons.mp hp).2)
      intro x hx
      have hx2 := (insertDescBy_perm key v ws).mem_iff.mp hx
      rcases List.mem_cons.mp hx2 with hx3 | hx3
      · exact hx3 ▸ le_of_lt (lt_of_not_le hk)
      · exact List.rel_of_pairwise_cons hp hx3

theorem sortDescBy_pairwise {α : Type} (key : α → ℚ) :
    ∀ l : List α, (sortDescBy key l).Pairwise (fun a b => key b ≤ key a) := by
  intro l
  induction l with
  | nil => exact List.Pairwise.nil
  | cons x xs ih => exact insertDescBy_pairwise key x (sortDescBy key xs) ih

theorem filter_insertDescBy {α : Type} (key : α → ℚ) (q : ℚ) (v : α) :
    ∀ l : List α,
      (insertDescBy key v l).filter (fun a => key a == q) =
        if key v = q then v :: l.filter (fun a => key a == q)
        else l.filter (fun a => key a == q) := by
  intro l
  induction l with
  | nil =>
    by_cases hq : key v = q <;>
      simp [insertDescBy, List.filter_cons, hq]
  | cons w ws ih =>
    show (if key w ≤ key v then v :: w :: ws else w :: insertDescBy key v ws).filter _ = _
    by_cases hk : key w ≤ key v
    · rw [if_pos hk]
      by_cases hq : key v = q <;> simp [List.filter_cons, hq]
    · rw [if_neg hk]
      have hlt : key v < key w := lt_of_not_le hk
      by_cases hq : key v = q
      · have hwq : key w ≠ q := by
          intro hc
          rw [hq, hc] at hlt
          exact lt_irrefl q hlt
        simp [List.filter_cons, hwq, ih, hq]
      · simp [List.filter_cons, ih, hq]

theorem filter_sortDescBy {α : Type} (key : α → ℚ) (q : ℚ) :
    ∀ l : List α,
      (sortDescBy key l).filter (fun a => key a == q) = l.filter (fun a => key a == q) := by
  intro l
  induction l with
  | nil => rfl
  | cons x xs ih =>
    show (insertDescBy key x (sortDescBy key xs)).filter _ = _
    rw [filter_insertDescBy]
    by_cases hq : key x = q
    · rw [if_pos hq, ih]
      simp [List.filter_cons, hq]
    · rw [if_neg hq, ih]
      simp [List.filter_cons, hq]

/-! ## Full elderly venue scoring

Source: `elderly_scorer.py`, `score_venue_for_elderly` and
`rank_activities_for_elderly`. -/

/-- Insert thousands separators into a digit string given in reverse
order (helper for Python's `f"{n:,}"`). -/
def groupRevDigits : List Char → List Char
  | a :: b :: c :: d :: rest => a :: b :: c :: ',' :: groupRevDigits (d :: rest)
  | l => l

/-- Python `f"{n:,}"`: decimal rendering with thousands separators. -/
def intWithCommas (n : ℤ) : String :=
  (if n < 0 then "-" else "") ++ ⟨(groupRevDigits (toString n.natAbs).data.reverse).reverse⟩

/-- Python `f"{x:.1f}"`: fixed-point rendering with one decimal
(half-to-even at the rational level). -/
def fmtFix1 (q : ℚ) : String :=
  (if pyRound (q * 10) < 0 then "-" else "")
    ++ toString ((pyRound (q * 10)).natAbs / 10) ++ "."
    ++ toString ((pyRound (q * 10)).natAbs % 10)

/-- The `VenueScore` response model. -/
structure VenueScore where
  name : String
  crowd_score : ℚ
  walkability_score : ℚ
  accessibility_score : ℚ
  overall_score : ℚ
  recommendation : String
  reasons : List String
deriving DecidableEq, Repr

/-- `score_venue_for_elderly`: auto-estimates distance and steps when
absent, combines the three sub-scores with weights 0.35/0.40/0.25,
builds the reason strings and the recommendation tier. -/
def score_venue_for_elderly (name : String) (busyness_pct : Option ℚ)
    (is_outdoor : Bool) (duration_minutes : Option ℤ) (venue_type : Option String)
    (description : Option String) (has_seating : Bool)
    (distance_km : Option ℚ) (estimated_steps : Option ℤ) : VenueScore :=
  let distance_km : ℚ :=
    match distance_km with
    | none => estimate_distance_from_duration duration_minutes is_outdoor venue_type
    | some d => d
  let estimated_steps : ℤ :=
    match estimated_steps with
    | none => estimate_steps_from_duration duration_minutes is_outdoor venue_type
    | some s => s
  let crowd := compute_crowd_score busyness_pct
  let walk := compute_walkability_score is_outdoor duration_minutes venue_type description
    (some distance_km) (some estimated_steps)
  let access := compute_accessibility_score (¬ is_outdoor) venue_type has_seating
  let overall := crowd * 0.35 + walk * 0.40 + access * 0.25
  let reasons : List String :=
    (match busyness_pct with
     | some b =>
       if crowd ≥ 70 then ["Low crowd levels — comfortable for elderly visitors"]
       else if crowd ≤ 30 then ["⚠️ High crowd levels — may be uncomfortable"]
       else ["Moderate crowd levels (" ++ toString (pyRound b) ++ "% busy)"]
     | none => ["ℹ️ Crowd data unavailable — score is estimated"])
    ++ (if estimated_steps > 0 then
          (if estimated_steps > 6000 then
            ["⚠️ ~" ++ intWithCommas estimated_steps ++ " steps estimated — plan rest breaks and consider taxi"]
          else if estimated_steps > 3000 then
            ["~" ++ intWithCommas estimated_steps ++ " steps — moderate walking involved"]
          else ["~" ++ intWithCommas estimated_steps ++ " steps — light walking"])
        else [])
    ++ (if distance_km > 0 then
          (if distance_km > 3 then
            ["⚠️ ~" ++ fmtFix1 distance_km ++ " km distance — consider taxi or auto-rickshaw"]
          else if distance_km > 1 then
            ["~" ++ fmtFix1 distance_km ++ " km — manageable walking distance"]
          else [])
        else [])
    ++ (if walk ≥ 70 then ["Minimal physical effort required"]
        else if walk ≤ 40 then ["⚠️ Significant physical effort needed"]
        else [])
    ++ (if ¬ is_outdoor then ["Indoor venue — weather-protected"]
        else ["Outdoor venue — check weather conditions"])
    ++ (if pyTruthyI duration_minutes ∧ duration_minutes.getD 0 > 120 then
          ["⚠️ Long duration (" ++ toString (duration_minutes.getD 0) ++ " min) — plan rest breaks"]
        else [])
  let recTier :=
    if overall ≥ 75 then "Highly Recommended"
    else if overall ≥ 55 then "Suitable"
    else if overall ≥ 35 then "Use Caution"
    else "Not Recommended"
  { name := name,
    crowd_score := pyRound1 crowd,
    walkability_score := pyRound1 walk,
    accessibility_score := pyRound1 access,
    overall_score := pyRound1 overall,
    recommendation := recTier,
    reasons := reasons }

/-- An activity dict as consumed by `rank_activities_for_elderly`
(`a.get(...)` with the source's defaults). -/
structure ElderlyActivityDict where
  name : Option String := none
  title : Option String := none
  busyness_pct : Option ℚ := none
  is_outdoor : Bool := false
  duration_minutes : Option ℤ := none
  type : Option String := none
  category : Option String := none
  description : Option String := none
  has_seating : Bool := true
  distance_km : Option ℚ := none
  estimated_steps : Option ℤ := none
deriving DecidableEq, Repr

/-- The per-dict scoring call of `rank_activities_for_elderly`
(`a.get("name") or a.get("title", "Unknown")`, `a.get("type") or
a.get("category")`). -/
def scoreElderlyDict (a : ElderlyActivityDict) : VenueScore :=
  score_venue_for_elderly
    (if pyTruthyS a.name then a.name.getD "" else a.title.getD "Unknown")
    a.busyness_pct a.is_outdoor a.duration_minutes
    (pyOrS a.type a.category)
    a.description a.has_seating a.distance_km a.estimated_steps

/-- `rank_activities_for_elderly`: score each dict, stable-sort
descending by `overall_score`. -/
def rank_activities_for_elderly (activities : List ElderlyActivityDict) : List VenueScore :=
  sortDescBy VenueScore.overall_score (activities.map scoreElderlyDict)

/-! ## Child scorer

Source: `backend/services/child_scorer.py`.  `KID_FRIENDLY_TYPES` is a
Python set scanned with `for venue_type in KID_FRIENDLY_TYPES`; its
iteration order is modelled as the source-literal order (no claim below
depends on which of several simultaneously matching types wins). -/

/-- The `ChildScore` response model. -/
structure ChildScore where
  name : String
  fun_score : ℚ
  safety_score : ℚ
  engagement_score : ℚ
  overall_score : ℚ
  recommendation : String
  emoji : String
  reasons : List String
  suggested_alternative : Option String := none
deriving DecidableEq, Repr

/-- `KID_FRIENDLY_TYPES`. -/
def KID_FRIENDLY_TYPES : List String :=
  ["amusement_park", "theme_park", "zoo", "aquarium", "playground",
   "park", "water_park", "waterpark", "beach", "ice_cream",
   "toy_store", "carnival", "circus", "bowling", "arcade",
   "trampoline", "museum", "science_center", "planetarium"]

/-- `SUPER_FUN_KEYWORDS`. -/
def SUPER_FUN_KEYWORDS : List String :=
  ["amusement", "theme park", "roller coaster", "water slide",
   "zoo", "aquarium", "playground", "trampoline", "carnival",
   "magic show", "puppet", "cartoon", "toy", "candy",
   "ice cream", "chocolate", "fun", "adventure park", "splash",
   "go kart", "bumper car", "ferris wheel", "merry-go-round",
   "arcade", "gaming", "laser tag", "mini golf", "bowling"]

/-- `BORING_FOR_KIDS_KEYWORDS`. -/
def BORING_FOR_KIDS_KEYWORDS : List String :=
  ["wine", "bar", "pub", "nightclub", "brewery", "cocktail",
   "spa", "massage", "meditation", "yoga retreat",
   "business", "conference", "seminar", "workshop",
   "art gallery", "antique", "heritage walk"]

/-- `RISKY_FOR_KIDS_KEYWORDS`. -/
def RISKY_FOR_KIDS_KEYWORDS : List String :=
  ["bungee", "paragliding", "scuba", "deep sea",
   "rock climbing", "cliff", "white water", "rapids",
   "skydiving", "zip line", "mountaineering"]

/-- `_ALTERNATIVES`: kid-friendly alternatives by venue type. -/
def _ALTERNATIVES : List (String × List String) := [
  ("temple",
    ["🎨 Visit a children\x27s art workshop nearby",
     "🌳 Explore the temple gardens and feed birds"]),
  ("monument",
    ["🏰 Take a treasure hunt tour of the monument",
     "📸 Fun photo scavenger hunt around the site"]),
  ("restaurant",
    ["🍦 Find a kid-friendly cafe with ice cream and games",
     "🎪 Look for a themed restaurant with play area"]),
  ("market",
    ["🎈 Visit the toy section or balloon vendors",
     "🍬 Explore candy and snack stalls together"]),
  ("museum",
    ["🔬 Check if there\x27s a kids\x27 interactive science section",
     "🎮 Look for hands-on exhibits and activity zones"]),
  ("beach",
    ["🏖️ Build sandcastles and collect seashells",
     "🪁 Fly kites and play beach games"]),
  ("viewpoint",
    ["🔭 Bring binoculars for a fun spotting game",
     "📷 Photo challenge — who spots the coolest thing?"]),
  ("station",
    ["🚂 Watch trains and play the train-spotting game",
     "📚 Bring activity books for the journey"]),
  ("hotel",
    ["🏊 Check if the hotel has a pool or play area",
     "🎲 Board games and indoor fun at the hotel"])]

/-- `_VENUE_EMOJIS`. -/
def _VENUE_EMOJIS : List (String × String) := [
  ("beach", "🏖️"), ("temple", "🛕"), ("restaurant", "🍽️"),
  ("station", "🚂"), ("hotel", "🏨"), ("monument", "🏛️"),
  ("park", "🌳"), ("market", "🛍️"), ("viewpoint", "📸"),
  ("waterfall", "🌊"), ("zoo", "🦁"), ("aquarium", "🐠"),
  ("amusement_park", "🎢"), ("theme_park", "🎡"), ("museum", "🏛️"),
  ("playground", "🛝"), ("cinema", "🎬"), ("attraction", "⭐")]

/-- `venue_type.replace("_", " ")`. -/
def replaceUnderscore (s : String) : String :=
  ⟨s.data.map (fun c => if c = '_' then ' ' else c)⟩

/-- The broader keyword patterns of `_classify_for_kids`. -/
def kidPatterns : List (String × List String) := [
  ("beach", ["beach", "shore", "coast", "seaside"]),
  ("temple", ["temple", "mandir", "church", "mosque", "shrine"]),
  ("restaurant", ["restaurant", "cafe", "food", "breakfast", "lunch", "dinner", "dosa", "biryani"]),
  ("station", ["railway", "station", "bus stand", "airport", "departure", "arrival"]),
  ("hotel", ["hotel", "resort", "check-in", "lodge", "stay"]),
  ("monument", ["fort", "palace", "memorial", "tomb"]),
  ("park", ["park", "garden", "botanical"]),
  ("market", ["market", "bazaar", "shopping", "mall"]),
  ("viewpoint", ["viewpoint", "sunset", "sunrise", "scenic", "lookout"]),
  ("waterfall", ["waterfall", "falls", "dam", "lake"])]

/-- `_classify_for_kids(title, description)`. -/
def _classify_for_kids (title : String) (description : Option String) : String :=
  let text := strLower (title ++ " " ++ description.getD "")
  match KID_FRIENDLY_TYPES.find? (fun vt => strIn (replaceUnderscore vt) text || strIn vt text) with
  | some vt => vt
  | none =>
    match kidPatterns.find? (fun p => p.2.any (fun kw => strIn kw text)) with
    | some p => p.1
    | none => "attraction"

/-- `score_activity_for_child`. -/
def score_activity_for_child (name : String) (description : Option String)
    (is_outdoor : Bool) (duration_minutes : Option ℤ)
    (venue_type : Option String) : ChildScore :=
  let text := strLower (name ++ " " ++ description.getD "")
  let vtype :=
    if pyTruthyS venue_type then venue_type.getD ""
    else _classify_for_kids name description
  let emoji0 := dictGet _VENUE_EMOJIS vtype "⭐"
  let super_fun_hits : ℤ := (SUPER_FUN_KEYWORDS.countP (fun kw => strIn kw text) : ℤ)
  let boring_hits : ℤ := (BORING_FOR_KIDS_KEYWORDS.countP (fun kw => strIn kw text) : ℤ)
  let risky_hits : ℤ := (RISKY_FOR_KIDS_KEYWORDS.countP (fun kw => strIn kw text) : ℤ)
  let funScore : ℚ := clampQ (50 + 12 * (super_fun_hits : ℚ) - 15 * (boring_hits : ℚ)
    + (if KID_FRIENDLY_TYPES.contains vtype then 20 else 0)
    + (if is_outdoor then 5 else 0)
    + (if pyTruthyI duration_minutes ∧ duration_minutes.getD 0 ≤ 60 then 5
       else if pyTruthyI duration_minutes ∧ duration_minutes.getD 0 > 120 then -10
       else 0))
  let safety : ℚ := clampQ (70 - 20 * (risky_hits : ℚ)
    + (if ¬ is_outdoor then 10 else 0)
    + (if ["restaurant", "hotel", "museum", "cinema", "mall"].contains vtype then 10 else 0)
    + (if ["beach", "waterfall", "viewpoint"].contains vtype then -5 else 0))
  let engagement : ℚ := clampQ (50
    + (if ["zoo", "aquarium", "amusement_park", "theme_park", "playground", "museum"].contains vtype then 30
       else if ["park", "beach"].contains vtype then 15
       else if ["temple", "monument"].contains vtype then -5
       else 0)
    + (if super_fun_hits > 0 then 15 else 0)
    + (if boring_hits > 0 then -20 else 0))
  let overall : ℚ := clampQ (funScore * 0.45 + safety * 0.25 + engagement * 0.30)
  let reasons : List String :=
    (if funScore ≥ 70 then ["🎉 Kids will love this activity!"]
     else if funScore ≥ 50 then ["👍 Decent fun level for children"]
     else if funScore < 30 then ["😴 Might not hold kids\x27 interest"]
     else [])
    ++ (if safety ≥ 70 then ["✅ Safe environment for children"]
        else if safety < 50 then ["⚠️ Extra supervision needed for kids"]
        else [])
    ++ (if risky_hits > 0 then ["🚫 May have age restrictions — verify before booking"] else [])
    ++ (if pyTruthyI duration_minutes then
          (if duration_minutes.getD 0 > 120 then
            ["⏰ Long duration (" ++ toString (duration_minutes.getD 0) ++ " min) — pack snacks and activities"]
          else if duration_minutes.getD 0 ≤ 45 then
            ["⚡ Perfect duration for kids\x27 attention span"]
          else [])
        else [])
    ++ (if is_outdoor then ["☀️ Outdoor — bring sunscreen, hats, and water"] else [])
  let recTier :=
    if overall ≥ 75 then "Super Fun!"
    else if overall ≥ 55 then "Good for Kids"
    else if overall ≥ 35 then "Okay"
    else "Not for Kids"
  let emoji1 := if overall ≥ 75 then "🌟" else emoji0
  let alternative : Option String :=
    if overall < 55 then
      (dictGet _ALTERNATIVES vtype
        ["🎪 Find a kid-friendly attraction near " ++ name,
         "🎨 Look for interactive workshops or play areas nearby"]).head?
    else none
  { name := name,
    fun_score := pyRound1 funScore,
    safety_score := pyRound1 safety,
    engagement_score := pyRound1 engagement,
    overall_score := pyRound1 overall,
    recommendation := recTier,
    emoji := emoji1,
    reasons := reasons,
    suggested_alternative := alternative }

/-- An activity dict as consumed by `rank_activities_for_children`. -/
structure ChildActivityDict where
  name : Option String := none
  title : Option String := none
  description : Option String := none
  is_outdoor : Bool := false
  duration_minutes : Option ℤ := none
  type : Option String := none
  category : Option String := none
deriving DecidableEq, Repr

/-- The per-dict scoring call of `rank_activities_for_children`. -/
def scoreChildDict (a : ChildActivityDict) : ChildScore :=
  score_activity_for_child
    (if pyTruthyS a.name then a.name.getD "" else a.title.getD "Unknown")
    a.description a.is_outdoor a.duration_minutes
    (pyOrS a.type a.category)

/-- `rank_activities_for_children`: score each dict, stable-sort
descending by `overall_score`. -/
def rank_activities_for_children (activities : List ChildActivityDict) : List ChildScore :=
  sortDescBy ChildScore.overall_score (activities.map scoreChildDict)

/-- C8: both rankers return the scored activities sorted by
`overall_score` in descending order; the output is a permutation of the
scores of the input, and for any key value the sub-list of results with
that `overall_score` equals the corresponding sub-list of the unsorted
scored input — so any two activities with equal `overall_score` keep
their relative input order (stable sort, no secondary tie-break). -/
theorem rank_activities_sorted_and_stable
    (as : List ElderlyActivityDict) (cs : List ChildActivityDict) :
    ((rank_activities_for_elderly as).Pairwise
        (fun x y => y.overall_score ≤ x.overall_score) ∧
      List.Perm (rank_activities_for_elderly as) (as.map scoreElderlyDict) ∧
      ∀ q : ℚ, (rank_activities_for_elderly as).filter (fun v => v.overall_score == q) =
        (as.map scoreElderlyDict).filter (fun v => v.overall_score == q)) ∧
    ((rank_activities_for_children cs).Pairwise
        (fun x y => y.overall_score ≤ x.overall_score) ∧
      List.Perm (rank_activities_for_children cs) (cs.map scoreChildDict) ∧
      ∀ q : ℚ, (rank_activities_for_children cs).filter (fun v => v.overall_score == q) =
        (cs.map scoreChildDict).filter (fun v => v.overall_score == q)) :=
  ⟨⟨sortDescBy_pairwise _ _, sortDescBy_perm _ _, fun q => filter_sortDescBy _ q _⟩,
   ⟨sortDescBy_pairwise _ _, sortDescBy_perm _ _, fun q => filter_sortDescBy _ q _⟩⟩

/-! ## Routers

Sources: `backend/routers/crowd.py`, `backend/routers/elderly.py`,
`backend/routers/child.py`, and `BestTimeClient.is_configured` from
`backend/services/besttime.py`.

External calls are oracles: `search q n` is the outcome of
`bt.venue_search(q, num=n)` (a raised exception is `.error ()`), and
`forecastDay vid d` the outcome of `bt.get_forecast_day(vid, d)`.  A
daily-forecast payload is modelled with numeric `day_raw` cells only
(a non-numeric cell is unchecked by the routers: in `crowd.py` it would
be caught by the per-activity handler, in `elderly.py` it would
propagate; neither path is modelled).  The client object itself is
always present (`bt and bt.is_configured` collapses to
`is_configured`). -/

/-- The BestTime client's credential pair. -/
structure BestTimeClient where
  api_key_private : String
  api_key_public : String
deriving DecidableEq, Repr

/-- `BestTimeClient.is_configured` (lines 25–32 of `besttime.py`):
false when either key is empty or when the private key contains
`"your_private_key"` or the public key contains `"your_public"`. -/
def is_configured (c : BestTimeClient) : Bool :=
  if c.api_key_private = "" ∨ c.api_key_public = "" then false
  else if strIn "your_private_key" c.api_key_private ∨ strIn "your_public" c.api_key_public then false
  else true

/-- A venue-search response as seen by `extract_venues_from_progress`:
a dict, a bare list of venues, or some other JSON value. -/
inductive ProgressData where
  | dict (p : Payload)
  | list (vs : List Venue)
  | other
deriving DecidableEq, Repr

/-- `extract_venues_from_progress` (`crowd.py` lines 43–73). -/
def extract_venues_from_progress : ProgressData → List Venue
  | ProgressData.list vs => vs
  | ProgressData.other => []
  | ProgressData.dict p =>
    if p.venues ≠ [] then p.venues
    else if p.venues_forecasts ≠ [] then p.venues_forecasts
    else if p.venue_info ≠ [] then p.venue_info
    else []

/-- `int(start_time.split(":")[0])`, with a parse failure (the caught
`ValueError`/`IndexError`) as `none`. -/
def parseHour (s : String) : Option ℤ :=
  ((s.splitOn ":").headD "").toInt?

/-- The HTTP errors the routers raise: 503 "not configured",
502 "BestTime API error", 404 "no venues found". -/
inductive HErr where
  | unconfigured
  | upstream
  | notFound
deriving DecidableEq, Repr

/-- `Except.isOk`. -/
def isOkE {ε α : Type} : Except ε α → Bool
  | Except.ok _ => true
  | Except.error _ => false

/-- A daily-forecast payload: `forecast["analysis"]["day_raw"]`. -/
structure DayForecast where
  day_raw : List ℚ := []
deriving DecidableEq, Repr

/-- The `/api/crowd/venue-search` request body. -/
structure VenueSearchRequest where
  query : String
  num : ℤ := 5
deriving DecidableEq, Repr

/-- The `/api/crowd/venue-search` endpoint (`crowd.py` lines 112–125):
503 when unconfigured, 502 when the upstream call raises, otherwise the
raw payload. -/
def crowd_venue_search_endpoint (bt : BestTimeClient)
    (search : String → ℤ → Except Unit ProgressData)
    (req : VenueSearchRequest) : Except HErr ProgressData :=
  if ¬ is_configured bt then Except.error HErr.unconfigured
  else
    match search req.query req.num with
    | Except.ok data => Except.ok data
    | Except.error _ => Except.error HErr.upstream

/-- An itinerary activity of `/api/crowd/analyze-itinerary`. -/
structure ItineraryActivity where
  title : String
  location : Option String := none
  start_time : Option String := none
  day_of_week : Option ℤ := none
deriving DecidableEq, Repr

/-- The `/api/crowd/analyze-itinerary` request body. -/
structure AnalyzeItineraryRequest where
  destination : String
  activities : List ItineraryActivity
deriving DecidableEq, Repr

/-- A per-activity result dict of `analyze_itinerary` (the two shapes
of `venue_info` become the two optional fields; `api_available` is the
extra key present only in the unconfigured branch). -/
structure ActivityAnalysis where
  activity : String
  venue_name : Option String
  venue_id : Option String
  busyness_at_planned_time : ℚ
  optimization_tip : String
  venue_info_address : Option String := none
  venue_info_type : Option String := none
  api_available : Option Bool := none
  is_predicted : Bool
deriving DecidableEq, Repr

/-- The prediction-backed result entry (built identically in the
unconfigured, search-failed and no-venues branches of
`analyze_itinerary`; the unconfigured branch also sets
`api_available = False`). -/
def predictionAnalysisEntry (a : ItineraryActivity) (hour : Option ℤ)
    (withApiField : Bool) : ActivityAnalysis :=
  { activity := a.title,
    venue_name := none,
    venue_id := none,
    busyness_at_planned_time := ((predict_busyness a.title a.location hour a.day_of_week).1 : ℚ),
    optimization_tip := (predict_busyness a.title a.location hour a.day_of_week).2.1,
    venue_info_type := some (predict_busyness a.title a.location hour a.day_of_week).2.2,
    api_available := if withApiField then some false else none,
    is_predicted := true }

/-- One loop iteration of `analyze_itinerary` (`crowd.py` lines
187–312): predict when unconfigured; otherwise search, take the first
venue, extract busyness (embedded forecast, then one day-forecast
retry, then prediction), and band the tip. -/
def analyze_activity (api_available : Bool) (destination : String)
    (search : String → ℤ → Except Unit ProgressData)
    (forecastDay : String → ℤ → Except Unit DayForecast)
    (a : ItineraryActivity) : ActivityAnalysis :=
  if ¬ api_available then
    predictionAnalysisEntry a (a.start_time.bind parseHour) true
  else
    let search_query :=
      if pyTruthyS a.location then a.title ++ " " ++ a.location.getD ""
      else a.title ++ " in " ++ destination
    let hour := a.start_time.bind parseHour
    match search search_query 1 with
    | Except.error _ => predictionAnalysisEntry a hour false
    | Except.ok search_data =>
      match extract_venues_from_progress search_data with
      | [] => predictionAnalysisEntry a hour false
      | venue :: _ =>
        let busyness_at_time : Option ℚ :=
          match extract_busyness_from_venue venue a.day_of_week hour with
          | some v => some v
          | none =>
            if pyTruthyS venue.venue_id ∧ a.day_of_week.isSome then
              match forecastDay (venue.venue_id.getD "") (a.day_of_week.getD 0) with
              | Except.ok f =>
                match hour with
                | some hh =>
                  if f.day_raw ≠ [] ∧ 0 ≤ hh ∧ hh < (f.day_raw.length : ℤ) then
                    some (f.day_raw.getD hh.toNat 0)
                  else none
                | none => none
              | Except.error _ => none
            else none
        match busyness_at_time with
        | some b =>
          { activity := a.title,
            venue_name := some (venue.venue_name.getD "Unknown"),
            venue_id := venue.venue_id,
            busyness_at_planned_time := b,
            optimization_tip :=
              if b > 80 then "🔴 Very crowded at this time! Consider visiting earlier or later."
              else if b > 60 then "🟡 Moderately busy. Plan extra time for queues."
              else if b > 30 then "🟢 Reasonable crowd levels."
              else "✅ Great time to visit — minimal crowds!",
            venue_info_address := venue.venue_address,
            venue_info_type := venue.venue_type,
            is_predicted := false }
        | none =>
          { activity := a.title,
            venue_name := some (venue.venue_name.getD "Unknown"),
            venue_id := venue.venue_id,
            busyness_at_planned_time := ((predict_busyness a.title a.location hour a.day_of_week).1 : ℚ),
            optimization_tip := (predict_busyness a.title a.location hour a.day_of_week).2.1,
            venue_info_address := venue.venue_address,
            venue_info_type := venue.venue_type,
            is_predicted := true }

/-- The `/api/crowd/analyze-itinerary` response. -/
structure AnalyzeItineraryResponse where
  destination : String
  analysis : List ActivityAnalysis
  api_configured : Bool
deriving DecidableEq, Repr

/-- `analyze_itinerary` (`crowd.py` lines 174–318). -/
def analyze_itinerary (bt : BestTimeClient)
    (search : String → ℤ → Except Unit ProgressData)
    (forecastDay : String → ℤ → Except Unit DayForecast)
    (req : AnalyzeItineraryRequest) : AnalyzeItineraryResponse :=
  { destination := req.destination,
    analysis := req.activities.map
      (analyze_activity (is_configured bt) req.destination search forecastDay),
    api_configured := is_configured bt }

/-- An activity of the elderly optimizer. -/
structure ElderlyActivity where
  title : String
  description : Option String := none
  location : Option String := none
  is_outdoor : Bool := false
  duration_minutes : Option ℤ := none
  category : Option String := none
  day_of_week : Option ℤ := none
  start_time : Option String := none
deriving DecidableEq, Repr

/-- The `/api/elderly/optimize-itinerary` request body. -/
structure ElderlyOptimizeRequest where
  destination : String
  activities : List ElderlyActivity
deriving DecidableEq, Repr

/-- Busyness resolution of the elderly optimizer (`elderly.py` lines
126–180): day-forecast at the planned hour for the first found venue,
else the weekly mean of its embedded forecast, else the deterministic
prediction. -/
def elderly_busyness (api_available : Bool) (destination : String)
    (search : String → ℤ → Except Unit ProgressData)
    (forecastDay : String → ℤ → Except Unit DayForecast)
    (a : ElderlyActivity) : ℚ :=
  let fromApi : Option ℚ :=
    if api_available ∧ (pyTruthyS a.location ∨ a.title ≠ "") then
      match search (if pyTruthyS a.location then a.title ++ " " ++ a.location.getD ""
        else a.title ++ " in " ++ destination) 1 with
      | Except.error _ => none
      | Except.ok data =>
        match extract_venues_from_progress data with
        | [] => none
        | venue :: _ =>
          let fromDay : Option ℚ :=
            if pyTruthyS venue.venue_id ∧ a.day_of_week.isSome then
              match forecastDay (venue.venue_id.getD "") (a.day_of_week.getD 0) with
              | Except.ok f =>
                match a.start_time.bind parseHour with
                | some hh =>
                  if f.day_raw ≠ [] ∧ 0 ≤ hh ∧ hh < (f.day_raw.length : ℤ) then
                    some (f.day_raw.getD hh.toNat 0)
                  else none
                | none => none
              | Except.error _ => none
            else none
          match fromDay with
          | some v => some v
          | none =>
            match venue.venue_foot_traffic_forecast with
            | some ft =>
              if ft.analysis.week_raw ≠ [] then
                (if positiveWeekHours ft.analysis.week_raw ≠ [] then
                  some ((positiveWeekHours ft.analysis.week_raw).sum /
                    ((positiveWeekHours ft.analysis.week_raw).length : ℚ))
                else none)
              else none
            | none => none
    else none
  match fromApi with
  | some b => b
  | none => ((predict_busyness a.title a.location (a.start_time.bind parseHour) a.day_of_week).1 : ℚ)

/-- The enriched dict the elderly optimizer hands to the ranker
(`elderly.py` lines 182–204). -/
def elderly_enrich (api_available : Bool) (destination : String)
    (search : String → ℤ → Except Unit ProgressData)
    (forecastDay : String → ℤ → Except Unit DayForecast)
    (a : ElderlyActivity) : ElderlyActivityDict :=
  { name := some a.title,
    busyness_pct := some (elderly_busyness api_available destination search forecastDay a),
    is_outdoor := a.is_outdoor,
    duration_minutes := a.duration_minutes,
    type := a.category,
    description := a.description,
    has_seating := true,
    distance_km := some (estimate_distance_from_duration a.duration_minutes a.is_outdoor a.category),
    estimated_steps := some (estimate_steps_from_duration a.duration_minutes a.is_outdoor a.category) }

/-- The `/api/elderly/optimize-itinerary` response. -/
structure ElderlyOptimizeResponse where
  destination : String
  scored_activities : List VenueScore
  suggestions : List String
  overall_elderly_score : ℚ
  api_configured : Bool
deriving DecidableEq, Repr

/-- `optimize_itinerary` (`elderly.py` lines 113–263). -/
def optimize_itinerary (bt : BestTimeClient)
    (search : String → ℤ → Except Unit ProgressData)
    (forecastDay : String → ℤ → Except Unit DayForecast)
    (req : ElderlyOptimizeRequest) : ElderlyOptimizeResponse :=
  let api_available := is_configured bt
  let scored := rank_activities_for_elderly
    (req.activities.map (elderly_enrich api_available req.destination search forecastDay))
  let high_risk := scored.filter (fun s => s.overall_score < 40)
  let moderate_risk := scored.filter (fun s => 40 ≤ s.overall_score ∧ s.overall_score < 55)
  let long_activities := scored.filter (fun s => s.reasons.any (fun r => strIn "Long duration" r))
  let high_walk := scored.filter (fun s => s.walkability_score < 40)
  { destination := req.destination,
    scored_activities := scored,
    suggestions :=
      (if high_risk ≠ [] then
        ["⚠️ " ++ toString high_risk.length ++ " activities may be challenging for elderly travelers: "
          ++ String.intercalate ", " (high_risk.map VenueScore.name)]
       else [])
      ++ (if moderate_risk ≠ [] then
        ["🟡 " ++ toString moderate_risk.length ++ " activities need some adjustments: "
          ++ String.intercalate ", " (moderate_risk.map VenueScore.name)]
       else [])
      ++ (if long_activities ≠ [] then
        ["⏰ " ++ toString long_activities.length ++ " activities are long — schedule 15-30 min rest breaks."]
       else [])
      ++ (if high_walk ≠ [] then
        ["🚕 Consider taxi/auto for: " ++ String.intercalate ", " (high_walk.map VenueScore.name)]
       else [])
      ++ ["💡 Schedule the most physically demanding activities in the morning when energy is highest.",
          "🪑 Plan rest breaks of 15-30 minutes between activities."]
      ++ (if ¬ api_available then
        ["ℹ️ Scores are estimated without crowd data. Configure BestTime API for more accurate results."]
       else []),
    overall_elderly_score :=
      if scored ≠ [] then
        pyRound1 ((scored.map VenueScore.overall_score).sum / (scored.length : ℚ))
      else 0,
    api_configured := api_available }

/-- The `/api/elderly/suggestions` request body. -/
structure ElderlySearchRequest where
  destination : String
  types : Option (List String) := none
  num : ℤ := 10
deriving DecidableEq, Repr

/-- The default elderly-friendly venue types. -/
def elderly_default_types : List String :=
  ["museum", "cafe", "restaurant", "temple", "garden", "gallery"]

/-- One search-type iteration of `get_elderly_suggestions`
(`elderly.py` lines 75–104): a raised search is skipped (`continue`);
each found venue becomes a dict with the weekly-mean busyness of its
embedded forecast. -/
def suggestion_venues_for_type (search : String → ℤ → Except Unit ProgressData)
    (destination : String) (vt : String) : List ElderlyActivityDict :=
  match search (vt ++ " in " ++ destination) 3 with
  | Except.error _ => []
  | Except.ok data =>
    (extract_venues_from_progress data).map (fun v =>
      { name := some (v.venue_name.getD "Unknown"),
        busyness_pct :=
          match v.venue_foot_traffic_forecast with
          | some forecast =>
            if forecast.analysis.week_raw ≠ [] then
              (if positiveWeekHours forecast.analysis.week_raw ≠ [] then
                some ((positiveWeekHours forecast.analysis.week_raw).sum /
                  ((positiveWeekHours forecast.analysis.week_raw).length : ℚ))
              else none)
            else none
          | none => none,
        is_outdoor := false,
        duration_minutes := some 60,
        type := some vt,
        description := some (v.venue_type.getD ""),
        has_seating := true })

/-- `get_elderly_suggestions` (`elderly.py` lines 57–110): 503 when the
client is unconfigured, 404 when no venues were found across all
searched types, else the top `num` ranked venue scores. -/
def get_elderly_suggestions (bt : BestTimeClient)
    (search : String → ℤ → Except Unit ProgressData)
    (req : ElderlySearchRequest) : Except HErr (List VenueScore) :=
  if ¬ is_configured bt then Except.error HErr.unconfigured
  else
    let search_types :=
      match req.types with
      | some ts => if ts ≠ [] then ts else elderly_default_types
      | none => elderly_default_types
    let all_venues :=
      (search_types.map (suggestion_venues_for_type search req.destination)).flatten
    if all_venues = [] then Except.error HErr.notFound
    else Except.ok ((rank_activities_for_elderly all_venues).take req.num.toNat)

/-- An activity of the child optimizer. -/
structure ChildActivity where
  title : String
  description : Option String := none
  location : Option String := none
  is_outdoor : Bool := false
  duration_minutes : Option ℤ := none
  category : Option String := none
deriving DecidableEq, Repr

/-- The `/api/child/optimize-itinerary` request body. -/
structure ChildOptimizeRequest where
  destination : String
  activities : List ChildActivity
deriving DecidableEq, Repr

/-- A kid-friendly destination suggestion entry. -/
structure KidSuggestion where
  title : String
  description : String
  duration : String
  category : String
deriving DecidableEq, Repr

/-- The `"default"` entry of `_KID_DESTINATION_SUGGESTIONS`. -/
def _KID_DEFAULT_SUGGESTIONS : List KidSuggestion := [
  { title := "🎢 Visit an Amusement Park",
    description := "Thrilling rides and games for the whole family!",
    duration := "3-4 hours", category := "amusement_park" },
  { title := "🦁 Explore the Local Zoo",
    description := "Meet amazing animals up close!",
    duration := "2-3 hours", category := "zoo" },
  { title := "🍦 Ice Cream Parlor Hop",
    description := "Try the best ice cream spots in town!",
    duration := "1 hour", category := "restaurant" },
  { title := "🏖️ Beach Fun Day",
    description := "Sandcastles, splash time, and beach games!",
    duration := "2-3 hours", category := "beach" },
  { title := "🎨 Kids Art Workshop",
    description := "Painting, clay, and creative fun!",
    duration := "1-2 hours", category := "attraction" },
  { title := "🌳 Park Picnic & Playground",
    description := "Pack snacks and enjoy the outdoors!",
    duration := "1-2 hours", category := "park" }]

/-- `get_kid_suggestions`: the dict holds only the `"default"` key, so
every destination resolves to the default list. -/
def get_kid_suggestions (destination : String) : List KidSuggestion :=
  dictGet [("default", _KID_DEFAULT_SUGGESTIONS)] (strLower destination) _KID_DEFAULT_SUGGESTIONS

/-- The `/api/child/optimize-itinerary` response. -/
structure ChildOptimizeResponse where
  destination : String
  scored_activities : List ChildScore
  suggestions : List String
  overall_child_score : ℚ
  kid_activity_suggestions : List KidSuggestion
deriving DecidableEq, Repr

/-- The enriched dict the child optimizer hands to the ranker
(`child.py` lines 46–54). -/
def childEnrich (a : ChildActivity) : ChildActivityDict :=
  { name := some a.title,
    description := a.description,
    is_outdoor := a.is_outdoor,
    duration_minutes := a.duration_minutes,
    type := a.category }

/-- `optimize_itinerary_for_children` (`child.py` lines 40–101). -/
def optimize_itinerary_for_children (req : ChildOptimizeRequest) : ChildOptimizeResponse :=
  let scored := rank_activities_for_children (req.activities.map childEnrich)
  let boring := scored.filter (fun s => s.overall_score < 40)
  let okay := scored.filter (fun s => 40 ≤ s.overall_score ∧ s.overall_score < 55)
  let fn := scored.filter (fun s => s.overall_score ≥ 70)
  { destination := req.destination,
    scored_activities := scored,
    suggestions :=
      (if fn ≠ [] then
        ["🎉 " ++ toString fn.length ++ " activities are super fun for kids: "
          ++ String.intercalate ", " ((fn.take 3).map ChildScore.name)]
       else [])
      ++ (if boring ≠ [] then
        ["😴 " ++ toString boring.length ++ " activities might bore kids: "
          ++ String.intercalate ", " ((boring.take 3).map ChildScore.name),
         "💡 Click \"Make it Fun!\" to get kid-friendly alternatives."]
       else [])
      ++ (if okay ≠ [] then
        ["👍 " ++ toString okay.length ++ " activities are okay but could be more fun."]
       else [])
      ++ ["🍦 Don\x27t forget snack breaks every 1-2 hours!",
          "🧴 Pack sunscreen, hats, and water for outdoor activities.",
          "📱 Download offline games and movies for travel segments."],
    overall_child_score :=
      if scored ≠ [] then
        pyRound1 ((scored.map ChildScore.overall_score).sum / (scored.length : ℚ))
      else 0,
    kid_activity_suggestions := get_kid_suggestions req.destination }

/-! ## Claims about configuration gating and error surfacing -/

/-- C5 as literally stated: configured iff both credentials are
non-empty and neither *equals* a known placeholder value (the
placeholder markers appearing in the source). -/
def is_configured_claimed (c : BestTimeClient) : Bool :=
  c.api_key_private ≠ "" && c.api_key_public ≠ "" &&
  c.api_key_private ≠ "your_private_key" && c.api_key_public ≠ "your_public"

/-- A client whose private key strictly contains the placeholder
marker without equalling it. -/
def c5Client : BestTimeClient :=
  { api_key_private := "your_private_key2", api_key_public := "realpublickey" }

/-- Counterexample to C5 as stated: both keys are non-empty and neither
equals a placeholder, yet `is_configured` is false, because the code
tests substring containment, not equality. -/
theorem is_configured_claim_counterexample :
    is_configured_claimed c5Client = true ∧ is_configured c5Client = false := by
  constructor <;> rfl

/-- C5 (amended): `is_configured` is true iff both credentials are
non-empty, the private key does not contain `"your_private_key"` and
the public key does not contain `"your_public"`; and when it is false,
`analyze_itinerary` makes no external call (its result is identical
under any two oracle behaviors) and every per-activity result is the
prediction, flagged `is_predicted = true`. -/
theorem is_configured_containment (c : BestTimeClient)
    (s1 s2 : String → ℤ → Except Unit ProgressData)
    (f1 f2 : String → ℤ → Except Unit DayForecast)
    (req : AnalyzeItineraryRequest) :
    (is_configured c = true ↔
      (c.api_key_private ≠ "" ∧ c.api_key_public ≠ "" ∧
       strIn "your_private_key" c.api_key_private = false ∧
       strIn "your_public" c.api_key_public = false)) ∧
    (is_configured c = false →
      analyze_itinerary c s1 f1 req = analyze_itinerary c s2 f2 req ∧
      ∀ e ∈ (analyze_itinerary c s1 f1 req).analysis, e.is_predicted = true) := by
  constructor
  · unfold is_configured
    split_ifs with h1 h2
    · simp only [Bool.false_eq_true, false_iff]
      intro hx
      rcases h1 with h1 | h1
      · exact hx.1 h1
      · exact hx.2.1 h1
    · simp only [Bool.false_eq_true, false_iff]
      intro hx
      rcases h2 with h2 | h2
      · rw [hx.2.2.1] at h2
        exact Bool.false_ne_true h2
      · rw [hx.2.2.2] at h2
        exact Bool.false_ne_true h2
    · push_neg at h1 h2
      simp only [true_iff]
      exact ⟨h1.1, h1.2, Bool.not_eq_true _ ▸ (Bool.eq_false_iff.mpr h2.1),
        Bool.eq_false_iff.mpr h2.2⟩
  · intro hc
    constructor
    · unfold analyze_itinerary analyze_activity
      rw [hc]
      simp
    · intro e he
      unfold analyze_itinerary at he
      rw [hc] at he
      simp only at he
      obtain ⟨a, _, rfl⟩ := List.mem_map.mp he
      rfl

/-- Concrete material for the configuration witnesses: an unconfigured
client, two observably different oracles, a one-activity request. -/
def cUnconf : BestTimeClient := { api_key_private := "", api_key_public := "" }

/-- An always-failing search oracle. -/
def wSearchFail : String → ℤ → Except Unit ProgressData := fun _ _ => Except.error ()

/-- An always-succeeding (empty) search oracle. -/
def wSearchEmpty : String → ℤ → Except Unit ProgressData :=
  fun _ _ => Except.ok (ProgressData.dict {})

/-- An always-failing day-forecast oracle. -/
def wFdFail : String → ℤ → Except Unit DayForecast := fun _ _ => Except.error ()

/-- A one-activity analyze request. -/
def wAnalyzeReq : AnalyzeItineraryRequest :=
  { destination := "Chennai", activities := [{ title := "Marina Beach" }] }

/-- Witness for the amended C5: on an unconfigured client the analysis
is oracle-independent. -/
theorem is_configured_containment_witness :
    is_configured cUnconf = false ∧
    analyze_itinerary cUnconf wSearchFail wFdFail wAnalyzeReq =
      analyze_itinerary cUnconf wSearchEmpty wFdFail wAnalyzeReq :=
  ⟨rfl, ((is_configured_containment cUnconf wSearchFail wSearchEmpty wFdFail wFdFail
    wAnalyzeReq).2 rfl).1⟩

/-- A configured client for the C3 counterexample. -/
def c3Client : BestTimeClient :=
  { api_key_private := "privatekey123", api_key_public := "publickey123" }

/-- Counterexample to C3 as stated: with a configured client and a
failing upstream, the raw venue-search endpoint — which is not the
elderly suggestion search — surfaces a 502 upstream error instead of
degrading to the deterministic prediction, and that error is not the
"service unconfigured" one. -/
theorem crowd_endpoint_error_counterexample :
    crowd_venue_search_endpoint c3Client wSearchFail { query := "Marina Beach", num := 5 } =
      Except.error HErr.upstream ∧
    HErr.upstream ≠ HErr.unconfigured := by
  constructor
  · rfl
  · intro h
    exact HErr.noConfusion h

/-- C3 (amended): the itinerary-analysis endpoint never errors — for
every request and oracle behavior it returns one result entry per
activity, reports `api_configured = is_configured`, and flags every
entry predicted when the client is unconfigured.  The raw proxy
venue-search endpoint instead surfaces errors: it succeeds exactly when
the client is configured and the upstream call succeeds (503
`unconfigured` / 502 `upstream` otherwise); and the elderly suggestion
endpoint rejects an unconfigured client with the 503 `unconfigured`
error. -/
theorem error_surface (bt : BestTimeClient)
    (search : String → ℤ → Except Unit ProgressData)
    (forecastDay : String → ℤ → Except Unit DayForecast)
    (req : AnalyzeItineraryRequest) (vreq : VenueSearchRequest)
    (ereq : ElderlySearchRequest) :
    (analyze_itinerary bt search forecastDay req).api_configured = is_configured bt ∧
    (analyze_itinerary bt search forecastDay req).analysis.length = req.activities.length ∧
    (is_configured bt = false →
      ∀ e ∈ (analyze_itinerary bt search forecastDay req).analysis, e.is_predicted = true) ∧
    isOkE (crowd_venue_search_endpoint bt search vreq) =
      (is_configured bt && isOkE (search vreq.query vreq.num)) ∧
    (is_configured bt = false →
      get_elderly_suggestions bt search ereq = Except.error HErr.unconfigured) := by
  refine ⟨rfl, ?_, ?_, ?_, ?_⟩
  · unfold analyze_itinerary
    exact List.length_map _ _
  · intro hc e he
    unfold analyze_itinerary at he
    rw [hc] at he
    simp only at he
    obtain ⟨a, _, rfl⟩ := List.mem_map.mp he
    rfl
  · unfold crowd_venue_search_endpoint
    cases hcfg : is_configured bt
    · rw [if_pos (by simp [hcfg])]
      rfl
    · rw [if_neg (by simp [hcfg])]
      cases search vreq.query vreq.num <;> rfl
  · intro hc
    unfold get_elderly_suggestions
    rw [if_pos (by simp [hc])]

/-- A one-type elderly suggestion request for the C3 witness. -/
def wElderlyReq : ElderlySearchRequest := { destination := "Chennai" }

/-- Witness for the amended C3: on an unconfigured client the analysis
entry count still matches and the suggestion endpoint rejects. -/
theorem error_surface_witness :
    is_configured cUnconf = false ∧
    (analyze_itinerary cUnconf wSearchFail wFdFail wAnalyzeReq).analysis.length = 1 ∧
    get_elderly_suggestions cUnconf wSearchFail wElderlyReq = Except.error HErr.unconfigured := by
  refine ⟨rfl, ?_, ?_⟩
  · exact (error_surface cUnconf wSearchFail wFdFail wAnalyzeReq
      { query := "x", num := 5 } wElderlyReq).2.1
  · exact (error_surface cUnconf wSearchFail wFdFail wAnalyzeReq
      { query := "x", num := 5 } wElderlyReq).2.2.2.2 rfl

theorem rank_elderly_length (l : List ElderlyActivityDict) :
    (rank_activities_for_elderly l).length = l.length := by
  unfold rank_activities_for_elderly
  rw [(sortDescBy_perm _ _).length_eq, List.length_map]

theorem rank_children_length (l : List ChildActivityDict) :
    (rank_activities_for_children l).length = l.length := by
  unfold rank_activities_for_children
  rw [(sortDescBy_perm _ _).length_eq, List.length_map]

/-- C9: for both persona orchestrators, the scored list carries exactly
one entry per input activity, and the overall itinerary score is the
unweighted arithmetic mean of the scored activities' overall scores
rounded to one decimal — exactly 0 (not an error) when the activity
list is empty. -/
theorem overall_score_is_rounded_mean (bt : BestTimeClient)
    (search : String → ℤ → Except Unit ProgressData)
    (forecastDay : String → ℤ → Except Unit DayForecast)
    (ereq : ElderlyOptimizeRequest) (creq : ChildOptimizeRequest) :
    ((optimize_itinerary bt search forecastDay ereq).scored_activities.length
        = ereq.activities.length ∧
      (optimize_itinerary bt search forecastDay ereq).overall_elderly_score =
        (if ereq.activities = [] then 0
         else pyRound1
           ((((optimize_itinerary bt search forecastDay ereq).scored_activities.map
               VenueScore.overall_score).sum) /
            (ereq.activities.length : ℚ)))) ∧
    ((optimize_itinerary_for_children creq).scored_activities.length
        = creq.activities.length ∧
      (optimize_itinerary_for_children creq).overall_child_score =
        (if creq.activities = [] then 0
         else pyRound1
           ((((optimize_itinerary_for_children creq).scored_activities.map
               ChildScore.overall_score).sum) /
            (creq.activities.length : ℚ)))) := by
  constructor
  · have hlen : (optimize_itinerary bt search forecastDay ereq).scored_activities.length
        = ereq.activities.length := by
      show (rank_activities_for_elderly _).length = _
      rw [rank_elderly_length, List.length_map]
    refine ⟨hlen, ?_⟩
    have hform : (optimize_itinerary bt search forecastDay ereq).overall_elderly_score =
        (if (optimize_itinerary bt search forecastDay ereq).scored_activities ≠ [] then
          pyRound1 (((optimize_itinerary bt search forecastDay ereq).scored_activities.map
            VenueScore.overall_score).sum /
            (((optimize_itinerary bt search forecastDay ereq).scored_activities.length : ℚ)))
        else 0) := rfl
    rw [hform]
    by_cases hemp : ereq.activities = []
    · have hsc : (optimize_itinerary bt search forecastDay ereq).scored_activities = [] := by
        apply List.length_eq_zero.mp
        rw [hlen, hemp]
        rfl
      rw [hsc]
      simp [hemp]
    · have hne : (optimize_itinerary bt search forecastDay ereq).scored_activities ≠ [] := by
        intro hx
        apply hemp
        apply List.length_eq_zero.mp
        rw [← hlen, hx]
        rfl
      rw [if_pos hne, if_neg hemp, hlen]
  · have hlen : (optimize_itinerary_for_children creq).scored_activities.length
        = creq.activities.length := by
      show (rank_activities_for_children _).length = _
      rw [rank_children_length, List.length_map]
    refine ⟨hlen, ?_⟩
    have hform : (optimize_itinerary_for_children creq).overall_child_score =
        (if (optimize_itinerary_for_children creq).scored_activities ≠ [] then
          pyRound1 (((optimize_itinerary_for_children creq).scored_activities.map
            ChildScore.overall_score).sum /
            (((optimize_itinerary_for_children creq).scored_activities.length : ℚ)))
        else 0) := rfl
    rw [hform]
    by_cases hemp : creq.activities = []
    · have hsc : (optimize_itinerary_for_children creq).scored_activities = [] := by
        apply List.length_eq_zero.mp
        rw [hlen, hemp]
        rfl
      rw [hsc]
      simp [hemp]
    · have hne : (optimize_itinerary_for_children creq).scored_activities ≠ [] := by
        intro hx
        apply hemp
        apply List.length_eq_zero.mp
        rw [← hlen, hx]
        rfl
      rw [if_pos hne, if_neg hemp, hlen]
